import Mathlib

/-
Verification of the OptiScan attendance core: a shallow embedding of
src/config.py, src/database.py, src/faiss_index.py, src/register_students.py
and src/mark_attendance.py, together with theorems settling the frozen
claims about that code.

Modelling conventions:
  - Embeddings (numpy float32 vectors) are lists of rationals; the squared-L2
    distance computed by faiss IndexFlatL2 is exact arithmetic here.
  - A faiss IndexFlatL2 holding n vectors is modelled by the list of those
    vectors in insertion order; index.search with one query row is modelled
    by a stable nearest-neighbour scan (ties broken by insertion order).
  - The sqlite connection is a record of the two tables plus a
    `storeFailure` field: `some msg` means every sqlite operation raises
    sqlite3.Error with message `msg` (the except-branches of database.py),
    `none` means the store is healthy.
  - A Python function that propagates an exception to its caller is modelled
    with `Except`; a function that catches every exception internally (and so
    always returns normally) is modelled as a total function.  In particular
    `FaissIndex.build_index` re-raises (models as `Except`), while
    `FaissIndex.update_index`, `FaissIndex.load_index` and
    `FaissIndex.search` swallow all exceptions (model as total functions).
  - The feature extractor (extract_embeddings.py) is out of scope per the
    spec; its already-computed result `(embedding | None, error message)` is
    passed as an argument to the two service functions, exactly where the
    code calls `extract_embedding`.
  - `datetime.now()` is passed in as the `now : String` argument.
-/

/-- config.py: `EMBEDDING_DIM = 512`. -/
def EMBEDDING_DIM : Nat := 512

/-- config.py: `FAISS_THRESHOLD = 0.4` (squared-L2 acceptance threshold). -/
def FAISS_THRESHOLD : ℚ := 0.4

/-- An embedding vector (numpy float32 row), modelled as a list of rationals. -/
abbrev Emb := List ℚ

/-- Squared L2 distance between two vectors of equal width, the metric of
faiss `IndexFlatL2`. -/
def sqDist (u v : Emb) : ℚ := (List.zipWith (fun a b => (a - b) * (a - b)) u v).sum

/-- Pair each distance with its position in the index, starting at `i`
(positions are the faiss internal ids, i.e. insertion order). -/
def tagIdx : Nat → List ℚ → List (ℚ × Nat)
  | _, [] => []
  | i, d :: ds => (d, i) :: tagIdx (i + 1) ds

/-- The comparison used to rank faiss search results: ascending distance,
ties broken by insertion order (lower internal id first). -/
def faissLt (a b : ℚ × Nat) : Prop := a.1 < b.1 ∨ (a.1 = b.1 ∧ a.2 ≤ b.2)

instance (a b : ℚ × Nat) : Decidable (faissLt a b) := by
  unfold faissLt; infer_instance

/-- `IndexFlatL2.search` with a single query row: the k nearest stored
vectors as (distance, internal id) pairs, ascending distance, ties by
insertion order.  (Padding of results when k exceeds the number of stored
vectors is not modelled; the code only searches with k = 1 on a non-empty
index.) -/
def kNearest (vecs : List Emb) (q : Emb) (k : Nat) : List (ℚ × Nat) :=
  (List.insertionSort faissLt (tagIdx 0 (vecs.map (fun v => sqDist q v)))).take k

/-- One value of the dict `FaissIndex.indices`: the tuple
`(index, student_ids, names)` kept per course.  `index = none` models the
Python value `None` in the first slot; `index = some vecs` models a faiss
index holding `vecs` in insertion order. -/
structure IdxEntry where
  index : Option (List Emb)
  student_ids : List Int
  names : List String
deriving DecidableEq

/-- faiss_index.py `FaissIndex`: the dict `indices` (course_id ->
(index, student_ids, names)) and the `dimension` field set from
`EMBEDDING_DIM` in `__init__`. -/
structure FaissIndex where
  indices : List (String × IdxEntry)
  dimension : Nat
deriving DecidableEq

/-- `FaissIndex.__init__`: empty dict, dimension = EMBEDDING_DIM. -/
def FaissIndex.init : FaissIndex := ⟨[], EMBEDDING_DIM⟩

/-- Dict assignment `self.indices[course_id] = e`: the stored bindings keep
one entry per key; lookup on the result finds `e` at `course_id` and is
unchanged at every other key. -/
def setEntry (l : List (String × IdxEntry)) (cid : String) (e : IdxEntry) :
    List (String × IdxEntry) :=
  (cid, e) :: l.filter (fun p => p.1 != cid)

/-- faiss_index.py `FaissIndex.build_index`.  An empty embeddings array is a
silent no-op (`return`).  Otherwise the length and dimension validations
raise ValueError, and the except-branch re-raises, so a validation failure
propagates to the caller: modelled as `Except.error` carrying the ValueError
message.  On success the course entry is replaced wholesale and the index is
persisted (persistence is outside the state modelled here). -/
def FaissIndex.build_index (fi : FaissIndex) (embeddings : List Emb)
    (student_ids : List Int) (names : List String) (course_id : String) :
    Except String FaissIndex :=
  if embeddings.isEmpty then Except.ok fi
  else if embeddings.length ≠ student_ids.length ∨ embeddings.length ≠ names.length then
    Except.error "Embeddings, student_ids, and names must have the same length"
  else if ∃ e ∈ embeddings, e.length ≠ fi.dimension then
    Except.error ("Embedding dimension must be " ++ toString fi.dimension)
  else
    Except.ok { fi with indices := setEntry fi.indices course_id ⟨some embeddings, student_ids, names⟩ }

/-- The persisted per-course faiss file as read back by `faiss.read_index`:
its own dimension `d` and stored vectors. -/
structure PersistedIndex where
  d : Nat
  vecs : List Emb
deriving DecidableEq

/-- faiss_index.py `FaissIndex.load_index`.  `persisted` is the content of
the course's index file (`none` when `os.path.exists` is false).  When the
file exists but `index.d != self.dimension`, the ValueError raised inside
the try-block is caught by `load_index`'s own except-branch, which records
`(None, [], [])` and returns normally — nothing reaches the caller.  A
loaded index always has empty id/name lists. -/
def FaissIndex.load_index (fi : FaissIndex) (course_id : String)
    (persisted : Option PersistedIndex) : FaissIndex :=
  match persisted with
  | some p =>
    if p.d ≠ fi.dimension then
      { fi with indices := setEntry fi.indices course_id ⟨none, [], []⟩ }
    else
      { fi with indices := setEntry fi.indices course_id ⟨some p.vecs, [], []⟩ }
  | none => { fi with indices := setEntry fi.indices course_id ⟨none, [], []⟩ }

/-- faiss_index.py `FaissIndex.update_index`.  The dimension check raises
ValueError, but the except-branch only logs: the exception never escapes and
the function returns normally (Python returns None), leaving the state
unchanged.  Otherwise a missing or `None` index for the course is replaced
by a fresh empty one, and the embedding/id/name are appended. -/
def FaissIndex.update_index (fi : FaissIndex) (embedding : Emb)
    (student_id : Int) (name : String) (course_id : String) : FaissIndex :=
  if embedding.length ≠ fi.dimension then fi
  else
    let cur : IdxEntry :=
      match fi.indices.lookup course_id with
      | none => ⟨some [], [], []⟩
      | some e =>
        match e.index with
        | none => ⟨some [], [], []⟩
        | some vs => ⟨some vs, e.student_ids, e.names⟩
    let e2 : IdxEntry :=
      ⟨some (cur.index.getD [] ++ [embedding]),
       cur.student_ids ++ [student_id], cur.names ++ [name]⟩
    { fi with indices := setEntry fi.indices course_id e2 }

/-- faiss_index.py `FaissIndex.search` with a single query row `q` (the one
call site passes `np.array([embedding])`).  Returns the Python tuple
`(D, I, student_ids, names)`: the first component `some (distances, ids)`
models the two arrays' single rows, `none` models `D = I = None`.  A missing
course, a `None` index, an empty index, and a query-width mismatch (whose
ValueError is caught by the except-branch) all return the sentinel
`(none, [], [])`; no exception escapes. -/
def FaissIndex.search (fi : FaissIndex) (q : Emb) (course_id : String)
    (k : Nat) : Option (List ℚ × List Nat) × List Int × List String :=
  match fi.indices.lookup course_id with
  | none => (none, [], [])
  | some e =>
    match e.index with
    | none => (none, [], [])
    | some vecs =>
      if vecs.isEmpty then (none, [], [])
      else if q.length ≠ fi.dimension then (none, [], [])
      else
        let res := kNearest vecs q k
        (some (res.map (fun p => p.1), res.map (fun p => p.2)), e.student_ids, e.names)

/-- One row of the `students` table (database.py `init_tables`), with the
BLOB already decoded to its float32 vector. -/
structure StudentRec where
  id : Int
  name : String
  course_id : String
  course_name : String
  embedding : Emb
deriving DecidableEq

/-- database.py `Database`: the two tables plus the failure switch.
`storeFailure = some msg` means every sqlite statement raises
`sqlite3.Error(msg)`; `none` means the store is healthy. -/
structure Database where
  students : List StudentRec
  attendance : List (Int × String × String)
  storeFailure : Option String
deriving DecidableEq

/-- The SELECT of `fetch_students`: all rows, or the rows of one course.
Python truthiness: `if course_id:` treats both `None` and `""` as "no
filter". -/
def Database.fetchQuery (db : Database) (course_id : Option String) : List StudentRec :=
  match course_id with
  | none => db.students
  | some c => if c = "" then db.students else db.students.filter (fun r => r.course_id == c)

/-- database.py `Database.check_duplicate`: existence query on
(id, course_id).  On sqlite3.Error the except-branch returns False. -/
def Database.check_duplicate (db : Database) (student_id : Int) (course_id : String) : Bool :=
  match db.storeFailure with
  | some _ => false
  | none => db.students.any (fun r => r.id == student_id && r.course_id == course_id)

/-- database.py `Database.register_student`: validates the embedding width
(ValueError is caught by the generic except, returned as "Error: ..."), then
INSERT OR REPLACE on the primary key (id, course_id) — the upsert removes
any existing row for the pair and appends the new row. -/
def Database.register_student (db : Database) (student_id : Int)
    (name course_id course_name : String) (embedding : Emb) :
    (Bool × String) × Database :=
  if embedding.length ≠ EMBEDDING_DIM then
    ((false, "Error: Embedding dimension must be " ++ toString EMBEDDING_DIM
        ++ ", got " ++ toString embedding.length), db)
  else
    match db.storeFailure with
    | some msg => ((false, "Database error: " ++ msg), db)
    | none =>
      ((true, "Student " ++ name ++ " (ID: " ++ toString student_id
          ++ ") registered successfully for " ++ course_name),
       { db with students :=
          db.students.filter (fun r => !(r.id == student_id && r.course_id == course_id))
            ++ [⟨student_id, name, course_id, course_name, embedding⟩] })

/-- database.py `Database.fetch_students`: sqlite3.Error returns None; a
stored embedding whose byte length is not EMBEDDING_DIM * 4 raises
ValueError, caught by the generic except, returning None; finally
`return students or None`, so an empty result set also returns None. -/
def Database.fetch_students (db : Database) (course_id : Option String) :
    Option (List StudentRec) :=
  match db.storeFailure with
  | some _ => none
  | none =>
    let students := db.fetchQuery course_id
    if students.all (fun r => r.embedding.length == EMBEDDING_DIM) then
      if students.isEmpty then none else some students
    else none

/-- database.py `Database.mark_attendance`: INSERT into the append-only
attendance table; sqlite3.Error returns (False, the error message). -/
def Database.mark_attendance (db : Database) (student_id : Int)
    (timestamp : String) (course_id : String) : (Bool × String) × Database :=
  match db.storeFailure with
  | some msg => ((false, "Error marking attendance: " ++ msg), db)
  | none =>
    ((true, "Attendance marked for student " ++ toString student_id
        ++ " in course " ++ course_id),
     { db with attendance := db.attendance ++ [(student_id, timestamp, course_id)] })

/-- register_students.py `register_student` (the enrollment service).
`ext` is the result of the `extract_embedding` call: the embedding or
`none`, paired with the extractor's error message.  Returns the (ok,
message) pair together with the resulting store and index states. -/
def register_student (db : Database) (student_id : Int)
    (name course_id course_name : String) (ext : Option Emb × String)
    (fi : FaissIndex) : (Bool × String) × Database × FaissIndex :=
  if db.check_duplicate student_id course_id then
    ((false, "Student " ++ toString student_id ++ " is already registered in course "
        ++ course_name), db, fi)
  else
    match ext.1 with
    | none => ((false, ext.2), db, fi)
    | some embedding =>
      if embedding.length ≠ EMBEDDING_DIM then
        ((false, "Unexpected embedding dimension " ++ toString embedding.length
            ++ ", expected " ++ toString EMBEDDING_DIM), db, fi)
      else
        let r := db.register_student student_id name course_id course_name embedding
        if r.1.1 then
          ((true, r.1.2 ++ " and FAISS index updated"), r.2,
           fi.update_index embedding student_id name course_id)
        else
          ((false, r.1.2), r.2, fi)

/-- mark_attendance.py line 32/39/58: the one generic rejection message. -/
def notRegisteredMsg : String := "Sorry, you are not registered in this course"

/-- mark_attendance.py `mark_attendance` (the recognition service).
`ext` is the result of the `extract_embedding` call, `now` the
`datetime.now()` timestamp string.  Returns the (student_id | None,
name | None, message) triple together with the resulting store state. -/
def mark_attendance (db : Database) (ext : Option Emb × String)
    (fi : FaissIndex) (course_id : String) (now : String) :
    (Option Int × Option String × String) × Database :=
  match ext.1 with
  | none => ((none, none, ext.2), db)
  | some embedding =>
    match db.fetch_students (some course_id) with
    | none => ((none, none, notRegisteredMsg), db)
    | some students =>
      if students.isEmpty then ((none, none, notRegisteredMsg), db)
      else
        match fi.search embedding course_id 1 with
        | (none, _, _) => ((none, none, notRegisteredMsg), db)
        | (some dres, student_ids, names) =>
          let distance := dres.1.getD 0 0
          let i0 := dres.2.getD 0 0
          if distance < FAISS_THRESHOLD then
            if student_ids.length ≤ i0 then
              ((none, none, "FAISS search returned invalid index"), db)
            else
              let sid := student_ids.getD i0 0
              let nm := names.getD i0 ""
              let w := db.mark_attendance sid now course_id
              if w.1.1 then
                ((some sid, some nm, "Attendance marked for " ++ nm ++ " (ID: "
                    ++ toString sid ++ ") in course " ++ course_id), w.2)
              else
                ((none, none, w.1.2), w.2)
          else ((none, none, notRegisteredMsg), db)

/-- Dict assignment followed by lookup at the same key finds the new entry. -/
lemma lookup_setEntry_self (l : List (String × IdxEntry)) (cid : String) (e : IdxEntry) :
    (setEntry l cid e).lookup cid = some e := by
  simp [setEntry, List.lookup]

/-- A successful `fetch_students` result is never the empty list
(`return students or None`) and implies the store was healthy. -/
lemma fetch_students_some {db : Database} {c : Option String} {ss : List StudentRec}
    (h : db.fetch_students c = some ss) : ss ≠ [] ∧ db.storeFailure = none := by
  unfold Database.fetch_students at h
  cases hf : db.storeFailure with
  | some m => rw [hf] at h; cases h
  | none =>
    rw [hf] at h
    simp only at h
    split_ifs at h with h1 h2
    cases h
    exact ⟨by simpa [List.isEmpty_iff] using h2, rfl⟩

/-- `update_index` keeps the `dimension` field. -/
lemma update_index_dimension (fi : FaissIndex) (e : Emb) (i : Int) (n cid : String) :
    (fi.update_index e i n cid).dimension = fi.dimension := by
  unfold FaissIndex.update_index
  split <;> rfl

/-- `update_index` on a course whose entry holds a live index appends the
vector, id and name. -/
lemma update_index_append {fi : FaissIndex} {cid : String} {vs : List Emb}
    {ids : List Int} {ns : List String} (e : Emb) (i : Int) (n : String)
    (hl : fi.indices.lookup cid = some ⟨some vs, ids, ns⟩)
    (hd : e.length = fi.dimension) :
    fi.update_index e i n cid
      = { fi with indices := setEntry fi.indices cid ⟨some (vs ++ [e]), ids ++ [i], ns ++ [n]⟩ } := by
  unfold FaissIndex.update_index
  rw [if_neg (by simp [hd]), hl]
  rfl

/-- `update_index` on a course with no entry creates a singleton index. -/
lemma update_index_create {fi : FaissIndex} {cid : String} (e : Emb) (i : Int) (n : String)
    (hl : fi.indices.lookup cid = none)
    (hd : e.length = fi.dimension) :
    fi.update_index e i n cid
      = { fi with indices := setEntry fi.indices cid ⟨some [e], [i], [n]⟩ } := by
  unfold FaissIndex.update_index
  rw [if_neg (by simp [hd]), hl]
  rfl

/-- Case analysis on a successful `build_index`: either the batch was empty
(silent no-op) or every validation passed and the entry was replaced. -/
lemma build_index_ok {fi fi' : FaissIndex} {A : List Emb} {s : List Int}
    {n : List String} {cid : String}
    (h : fi.build_index A s n cid = Except.ok fi') :
    (A = [] ∧ fi' = fi) ∨
    (A ≠ [] ∧ A.length = s.length ∧ A.length = n.length ∧
      (∀ e ∈ A, e.length = fi.dimension) ∧
      fi' = { fi with indices := setEntry fi.indices cid ⟨some A, s, n⟩ }) := by
  unfold FaissIndex.build_index at h
  split_ifs at h with h1 h2 h3 <;> cases h
  all_goals first
    | exact Or.inl ⟨by simpa [List.isEmpty_iff] using h1, rfl⟩
    | · push_neg at h2 h3
        exact Or.inr ⟨by simpa [List.isEmpty_iff] using h1, h2.1, h2.2, h3, rfl⟩

/-- `search` only looks at the dimension field and the course's dict entry. -/
lemma search_congr {f g : FaissIndex} (cid : String)
    (hd : f.dimension = g.dimension)
    (hl : f.indices.lookup cid = g.indices.lookup cid)
    (q : Emb) (k : Nat) : f.search q cid k = g.search q cid k := by
  unfold FaissIndex.search
  rw [hl, hd]

/-- Folding `update_index` over a batch, starting from a course entry with a
live index, appends all the batch's vectors, ids and names in order, and
keeps the dimension field. -/
lemma foldl_update_lookup (cid : String) (B : List (Emb × Int × String)) :
    ∀ (g : FaissIndex) (vs : List Emb) (ids : List Int) (ns : List String),
      g.indices.lookup cid = some ⟨some vs, ids, ns⟩ →
      (∀ t ∈ B, t.1.length = g.dimension) →
      (B.foldl (fun f t => f.update_index t.1 t.2.1 t.2.2 cid) g).indices.lookup cid
          = some ⟨some (vs ++ B.map (fun t => t.1)), ids ++ B.map (fun t => t.2.1),
                  ns ++ B.map (fun t => t.2.2)⟩
      ∧ (B.foldl (fun f t => f.update_index t.1 t.2.1 t.2.2 cid) g).dimension
          = g.dimension := by
  induction B with
  | nil =>
    intro g vs ids ns hl _
    simpa using hl
  | cons b B ih =>
    intro g vs ids ns hl hd
    rw [List.foldl_cons, update_index_append b.1 b.2.1 b.2.2 hl (hd b (List.mem_cons_self b B))]
    have hd2 : ∀ t ∈ B, t.1.length = g.dimension := fun t ht => hd t (List.mem_cons_of_mem _ ht)
    have step := ih { g with indices := setEntry g.indices cid ⟨some (vs ++ [b.1]), ids ++ [b.2.1], ns ++ [b.2.2]⟩ }
      (vs ++ [b.1]) (ids ++ [b.2.1]) (ns ++ [b.2.2]) (lookup_setEntry_self _ _ _) hd2
    simpa [List.append_assoc] using step

/-- `tagIdx` preserves the length of the distance list. -/
lemma tagIdx_length (i : Nat) (ds : List ℚ) : (tagIdx i ds).length = ds.length := by
  induction ds generalizing i with
  | nil => rfl
  | cons d ds ih => simp [tagIdx, ih]

/-- Every internal id produced by `tagIdx i` is below `i` plus the number of
stored vectors. -/
lemma tagIdx_snd_lt (ds : List ℚ) : ∀ (i : Nat), ∀ p ∈ tagIdx i ds, p.2 < i + ds.length := by
  induction ds with
  | nil =>
    intro i p hp
    simp [tagIdx] at hp
  | cons d ds ih =>
    intro i p hp
    simp only [tagIdx] at hp
    rcases List.mem_cons.mp hp with rfl | hp
    · simp only [List.length_cons]
      omega
    · have := ih (i + 1) p hp
      simp only [List.length_cons]
      omega

/-- Every internal id returned by a search is a valid position of the stored
vector list. -/
lemma kNearest_snd_lt {vecs : List Emb} {q : Emb} {k : Nat} :
    ∀ p ∈ kNearest vecs q k, p.2 < vecs.length := by
  intro p hp
  unfold kNearest at hp
  have h1 : p ∈ List.insertionSort faissLt (tagIdx 0 (vecs.map (fun v => sqDist q v))) :=
    List.mem_of_mem_take hp
  have h2 : p ∈ tagIdx 0 (vecs.map (fun v => sqDist q v)) :=
    (List.mem_insertionSort faissLt).mp h1
  have := tagIdx_snd_lt _ 0 p h2
  simpa [List.length_map] using this

/-- C1: for a (studentId, courseId) pair already present in the student
store (with the store healthy), `register_student` returns False with the
duplicate message and leaves both the store and the index exactly as they
were; the result does not depend on the extractor output `ext`, so no
feature extraction is consumed, and no store write or index mutation
happens. -/
theorem register_student_duplicate_rejected
    (db : Database) (student_id : Int) (nm cid cname : String)
    (ext : Option Emb × String) (fi : FaissIndex)
    (hok : db.storeFailure = none)
    (hdup : ∃ r ∈ db.students, r.id = student_id ∧ r.course_id = cid) :
    register_student db student_id nm cid cname ext fi
      = ((false, "Student " ++ toString student_id ++ " is already registered in course " ++ cname), db, fi) := by
  have hc : db.check_duplicate student_id cid = true := by
    unfold Database.check_duplicate
    rw [hok]
    obtain ⟨r, hr, h1, h2⟩ := hdup
    exact List.any_eq_true.mpr ⟨r, hr, by simp [h1, h2]⟩
  unfold register_student
  rw [hc]
  simp

/-- C1 witness: a store already holding (1234, "AI"); the duplicate call is
rejected with the duplicate message and changes nothing. -/
theorem register_student_duplicate_rejected_witness :
    register_student ⟨[⟨1234, "Ada", "AI", "Artificial Intelligence", []⟩], [], none⟩
        1234 "Ada" "AI" "Artificial Intelligence" (none, "no face") ⟨[], 512⟩
      = ((false, "Student 1234 is already registered in course Artificial Intelligence"),
         ⟨[⟨1234, "Ada", "AI", "Artificial Intelligence", []⟩], [], none⟩, ⟨[], 512⟩) :=
  register_student_duplicate_rejected _ _ _ _ _ _ _ rfl
    ⟨⟨1234, "Ada", "AI", "Artificial Intelligence", []⟩, by simp, rfl, rfl⟩

/-- C4: `search` returns the sentinel (None, [], []) — and raises nothing,
being a total function — whenever the course has no dict entry, the entry's
index slot is None, the index holds zero vectors, or the query row's width
differs from the configured dimension. -/
theorem search_failure_sentinel (fi : FaissIndex) (q : Emb) (cid : String) (k : Nat)
    (h : fi.indices.lookup cid = none
       ∨ (∃ e, fi.indices.lookup cid = some e ∧ e.index = none)
       ∨ (∃ e, fi.indices.lookup cid = some e ∧ e.index = some [])
       ∨ q.length ≠ fi.dimension) :
    fi.search q cid k = (none, [], []) := by
  rcases h with h | ⟨e, he, hi⟩ | ⟨e, he, hi⟩ | h
  · simp [FaissIndex.search, h]
  · simp [FaissIndex.search, he, hi]
  · simp [FaissIndex.search, he, hi]
  · unfold FaissIndex.search
    split
    · rfl
    · split
      · rfl
      · split_ifs with h1
        · rfl
        · rfl

/-- C4 witness: a fresh index has no entry for "AI"; the search returns the
sentinel. -/
theorem search_failure_sentinel_witness :
    FaissIndex.search ⟨[], 512⟩ [] "AI" 1 = (none, [], []) :=
  search_failure_sentinel ⟨[], 512⟩ [] "AI" 1 (Or.inl rfl)

/-- C10: when the sqlite layer is failing, check_duplicate returns False
even for a pair that is present in the students table, and register_student
proceeds past the duplicate check to the extraction step: with a failed
extraction it returns the extractor's error message — not the duplicate
message and not a store error. -/
theorem check_duplicate_false_on_store_error
    (db : Database) (student_id : Int) (nm cid cname errm : String) (fi : FaissIndex)
    (hfail : ∃ m, db.storeFailure = some m)
    (_hdup : ∃ r ∈ db.students, r.id = student_id ∧ r.course_id = cid) :
    db.check_duplicate student_id cid = false
    ∧ register_student db student_id nm cid cname (none, errm) fi = ((false, errm), db, fi) := by
  obtain ⟨m, hm⟩ := hfail
  have hc : db.check_duplicate student_id cid = false := by
    unfold Database.check_duplicate
    rw [hm]
  refine ⟨hc, ?_⟩
  unfold register_student
  rw [hc]
  simp

/-- C10 witness: (1234, "AI") is in the table, the store is failing; the
duplicate check answers False and the call returns the extraction error. -/
theorem check_duplicate_false_on_store_error_witness :
    Database.check_duplicate ⟨[⟨1234, "Ada", "AI", "Artificial Intelligence", []⟩], [], some "database is locked"⟩ 1234 "AI" = false
    ∧ register_student ⟨[⟨1234, "Ada", "AI", "Artificial Intelligence", []⟩], [], some "database is locked"⟩
        1234 "Ada" "AI" "Artificial Intelligence" (none, "Failed to detect eye region") ⟨[], 512⟩
      = ((false, "Failed to detect eye region"),
         ⟨[⟨1234, "Ada", "AI", "Artificial Intelligence", []⟩], [], some "database is locked"⟩, ⟨[], 512⟩) :=
  check_duplicate_false_on_store_error _ _ _ _ _ _ _ ⟨"database is locked", rfl⟩
    ⟨⟨1234, "Ada", "AI", "Artificial Intelligence", []⟩, by simp, rfl, rfl⟩

/-- C5 counterexample: loading a persisted index whose stored width (2)
differs from the configured dimension (512) produces exactly the state that
loading a missing file produces.  The ValueError raised on the mismatch is
caught by load_index's own except-branch (the function returns normally,
with no error value — its Python return is None), so nothing is surfaced to
the caller and the mismatch is indistinguishable from "no persisted index",
contrary to the claim that the error is surfaced as fatal. -/
theorem load_index_mismatch_not_surfaced :
    FaissIndex.load_index ⟨[], 512⟩ "AI" (some ⟨2, [[0, 0]]⟩)
      = FaissIndex.load_index ⟨[], 512⟩ "AI" none := by rfl

/-- C5 amended: on a stored-width mismatch, load_index swallows the error
and records the search-disabled entry (None, [], []) for the course — the
same state as when no persisted file exists — so the course cannot be
searched (every query returns the empty sentinel), but no error ever
reaches the caller. -/
theorem load_index_mismatch_silently_disabled
    (fi : FaissIndex) (cid : String) (p : PersistedIndex)
    (h : p.d ≠ fi.dimension) :
    fi.load_index cid (some p) = fi.load_index cid none
    ∧ (fi.load_index cid (some p)).indices.lookup cid = some ⟨none, [], []⟩
    ∧ ∀ q k, (fi.load_index cid (some p)).search q cid k = (none, [], []) := by
  have he : fi.load_index cid (some p)
      = { fi with indices := setEntry fi.indices cid ⟨none, [], []⟩ } := by
    simp only [FaissIndex.load_index]
    rw [if_pos h]
  refine ⟨by rw [he]; rfl, ?_, ?_⟩
  · rw [he]
    exact lookup_setEntry_self _ _ _
  · intro q k
    rw [he]
    simp [FaissIndex.search, lookup_setEntry_self]

/-- C5 witness: a persisted file of width 3 against dimension 512 leaves
course "GD" with the search-disabled (None, [], []) entry. -/
theorem load_index_mismatch_silently_disabled_witness :
    (FaissIndex.load_index ⟨[], 512⟩ "GD" (some ⟨3, [[1, 2, 3]]⟩)).indices.lookup "GD"
      = some ⟨none, [], []⟩ :=
  (load_index_mismatch_silently_disabled ⟨[], 512⟩ "GD" ⟨3, [[1, 2, 3]]⟩ (by decide)).2.1

/-- C6 counterexample: update_index called with a width-1 embedding against
dimension 512 returns normally with the state unchanged.  Its return type
carries no error component at all, mirroring the code: the ValueError is
caught inside update_index and only logged, Python returns None — so no
dimension-mismatch error is signaled to the caller, contrary to the claim. -/
theorem update_index_wrong_dim_swallowed :
    FaissIndex.update_index ⟨[], 512⟩ [0] 1234 "Ada" "AI" = ⟨[], 512⟩ := by rfl

/-- C6 amended: on a wrong-width embedding update_index leaves the entire
index state — every course's vectors, identifier sequence and name
sequence — unchanged, but the failure is only logged, never signaled to the
caller: the function returns normally with no error indication. -/
theorem update_index_wrong_dim_noop (fi : FaissIndex) (e : Emb) (sid : Int)
    (nm cid : String) (h : e.length ≠ fi.dimension) :
    fi.update_index e sid nm cid = fi := by
  unfold FaissIndex.update_index
  rw [if_pos h]

/-- C6 witness: a width-2 embedding against dimension 512 changes nothing. -/
theorem update_index_wrong_dim_noop_witness :
    FaissIndex.update_index ⟨[], 512⟩ [1, 2] 7 "Bo" "GD" = ⟨[], 512⟩ :=
  update_index_wrong_dim_noop ⟨[], 512⟩ [1, 2] 7 "Bo" "GD" (by decide)

/-- C7 counterexample: on a healthy store (storeFailure = none) with zero
rows for course "AI", fetch_students still returns None — because the code
ends with `return students or None`, the None result is not exclusive to a
store-level failure, contrary to the claim. -/
theorem fetch_students_none_on_healthy_empty :
    Database.fetch_students ⟨[], [], none⟩ (some "AI") = none
    ∧ (⟨[], [], none⟩ : Database).storeFailure = none := ⟨rfl, rfl⟩

/-- C7 amended: fetch_students returns None both on a store-level failure
and for an empty, valid, zero-record course, so None does not distinguish
the two; a `some ss` result does imply a healthy store and a non-empty
record list. -/
theorem fetch_students_none_ambiguous :
    (∀ (db : Database) (c : Option String),
        db.storeFailure = none → db.fetchQuery c = [] → db.fetch_students c = none)
    ∧ (∀ (db : Database) (c : Option String) (ss : List StudentRec),
        db.fetch_students c = some ss → ss ≠ [] ∧ db.storeFailure = none) := by
  constructor
  · intro db c h1 h2
    unfold Database.fetch_students
    rw [h1]
    simp [h2]
  · intro db c ss h
    exact fetch_students_some h

/-- C7 witness: the healthy empty store yields None for course "GD". -/
theorem fetch_students_none_ambiguous_witness :
    Database.fetch_students ⟨[], [], none⟩ (some "GD") = none :=
  fetch_students_none_ambiguous.1 ⟨[], [], none⟩ (some "GD") rfl rfl

/-- C9 counterexample: build_index with one embedding but empty id and name
lists evaluates to an error — the ValueError raised by the length validation
is re-raised by build_index's except-branch, so the exception propagates to
the caller instead of a (flag, message) return, contrary to the claim that
every public operation returns a flag plus message rather than raising. -/
theorem build_index_raises_on_length_mismatch :
    FaissIndex.build_index ⟨[], 512⟩ [[0]] [] [] "AI"
      = Except.error "Embeddings, student_ids, and names must have the same length" := by rfl

/-- C9 amended: register_student and mark_attendance return a flag/result
plus message for every input and search always returns a value (these are
total functions, mirroring their catch-all except-branches), but
build_index re-raises validation errors — it propagates an exception
exactly when the batch is non-empty and a length or width validation
fails — and update_index returns neither flag nor message. -/
theorem build_index_error_iff (fi : FaissIndex) (A : List Emb) (s : List Int)
    (n : List String) (cid : String) :
    (∃ msg, fi.build_index A s n cid = Except.error msg)
    ↔ (A ≠ [] ∧ (A.length ≠ s.length ∨ A.length ≠ n.length
        ∨ ∃ e ∈ A, e.length ≠ fi.dimension)) := by
  unfold FaissIndex.build_index
  split_ifs with h1 h2 h3
  · constructor
    · rintro ⟨msg, hmsg⟩
      cases hmsg
    · rintro ⟨hA, _⟩
      exact absurd (List.isEmpty_iff.mp h1) hA
  · refine ⟨fun _ => ⟨by simpa [List.isEmpty_iff] using h1, ?_⟩, fun _ => ⟨_, rfl⟩⟩
    rcases h2 with h | h
    · exact Or.inl h
    · exact Or.inr (Or.inl h)
  · exact ⟨fun _ => ⟨by simpa [List.isEmpty_iff] using h1, Or.inr (Or.inr h3)⟩,
           fun _ => ⟨_, rfl⟩⟩
  · constructor
    · rintro ⟨msg, hmsg⟩
      cases hmsg
    · rintro ⟨hA, hbad⟩
      push_neg at h2 h3
      rcases hbad with hb | hb | ⟨e, he, hne⟩
      · exact (hb h2.1).elim
      · exact (hb h2.2).elim
      · exact (hne (h3 e he)).elim

/-- C2: mark_attendance accepts the best match of the k=1 index query
exactly when its distance is strictly below FAISS_THRESHOLD.  On acceptance
(under the index invariant that ids/names parallel the vectors, and a
healthy store) it appends exactly one attendance event carrying the current
timestamp and returns the matched (studentId, name) with the success
message; on rejection (distance ≥ threshold) it writes nothing, leaves the
store unchanged, and returns (None, None, rejection message). -/
theorem mark_attendance_threshold_decision
    (db : Database) (fi : FaissIndex) (cid now errm : String) (emb : Emb)
    (e : IdxEntry) (vecs : List Emb) (b : ℚ × Nat)
    (hlook : fi.indices.lookup cid = some e)
    (hidx : e.index = some vecs)
    (hb : kNearest vecs emb 1 = [b])
    (hids : e.student_ids.length = vecs.length)
    (hnames : e.names.length = vecs.length)
    (hdim : emb.length = fi.dimension)
    (hdb : db.storeFailure = none)
    (hfetch : ∃ ss, db.fetch_students (some cid) = some ss) :
    (b.1 < FAISS_THRESHOLD →
      mark_attendance db (some emb, errm) fi cid now
        = ((some (e.student_ids.getD b.2 0), some (e.names.getD b.2 ""),
            "Attendance marked for " ++ e.names.getD b.2 "" ++ " (ID: "
              ++ toString (e.student_ids.getD b.2 0) ++ ") in course " ++ cid),
           { db with attendance := db.attendance ++ [(e.student_ids.getD b.2 0, now, cid)] }))
    ∧ (FAISS_THRESHOLD ≤ b.1 →
      mark_attendance db (some emb, errm) fi cid now = ((none, none, notRegisteredMsg), db)) := by
  obtain ⟨ss, hss⟩ := hfetch
  have hssne := (fetch_students_some hss).1
  have hssE : ss.isEmpty = false := by
    cases ss with
    | nil => exact absurd rfl hssne
    | cons a l => rfl
  have hne : vecs ≠ [] := by
    intro hv
    rw [hv] at hb
    simp [kNearest, tagIdx, List.insertionSort] at hb
  have hsearch : fi.search emb cid 1
      = (some ([b.1], [b.2]), e.student_ids, e.names) := by
    unfold FaissIndex.search
    rw [hlook]
    simp only [hidx]
    rw [if_neg (by simp [List.isEmpty_iff, hne]), if_neg (by simp [hdim])]
    simp [hb]
  have hbmem : b ∈ kNearest vecs emb 1 := by
    rw [hb]
    exact List.mem_singleton.mpr rfl
  have hblt : b.2 < vecs.length := kNearest_snd_lt b hbmem
  constructor
  · intro hacc
    unfold mark_attendance
    simp only [hss, hssE, hsearch, Bool.false_eq_true, if_false, List.getD_cons_zero]
    rw [if_pos hacc, if_neg (by omega)]
    simp [Database.mark_attendance, hdb]
  · intro hrej
    unfold mark_attendance
    simp only [hss, hssE, hsearch, Bool.false_eq_true, if_false, List.getD_cons_zero]
    rw [if_neg (not_lt.mpr hrej)]

set_option maxRecDepth 8192 in
/-- C2 witness: one enrolled student, a self-match at distance 0 < 0.4; the
call marks attendance once with the given timestamp and returns the student. -/
theorem mark_attendance_threshold_decision_witness :
    mark_attendance
        ⟨[⟨1234, "Ada", "AI", "Artificial Intelligence", List.replicate 512 0⟩], [], none⟩
        (some [0], "") ⟨[("AI", ⟨some [[0]], [1234], ["Ada"]⟩)], 1⟩ "AI" "2026-01-01 09:00:00"
      = ((some 1234, some "Ada", "Attendance marked for Ada (ID: 1234) in course AI"),
         ⟨[⟨1234, "Ada", "AI", "Artificial Intelligence", List.replicate 512 0⟩],
          [(1234, "2026-01-01 09:00:00", "AI")], none⟩) :=
  (mark_attendance_threshold_decision
    ⟨[⟨1234, "Ada", "AI", "Artificial Intelligence", List.replicate 512 0⟩], [], none⟩
    ⟨[("AI", ⟨some [[0]], [1234], ["Ada"]⟩)], 1⟩ "AI" "2026-01-01 09:00:00" "" [0]
    ⟨some [[0]], [1234], ["Ada"]⟩ [[0]] (0, 0)
    rfl rfl (by norm_num [kNearest, sqDist, tagIdx, List.insertionSort]) rfl rfl rfl rfl
    ⟨[⟨1234, "Ada", "AI", "Artificial Intelligence", List.replicate 512 0⟩], by decide⟩).1
    (by norm_num [FAISS_THRESHOLD])

/-- C8: a mark_attendance call ending in the empty-roster / unsearchable-
index case and one ending in a below-threshold rejection against a
searchable non-empty gallery return identical message strings, so the
caller cannot distinguish "recognized but below threshold" from "no
gallery" from the returned message. -/
theorem rejection_message_indistinguishable
    (db1 db2 : Database) (fi1 fi2 : FaissIndex)
    (cid1 cid2 now1 now2 em1 em2 : String) (emb1 emb2 : Emb)
    (h1 : db1.fetch_students (some cid1) = none ∨ (fi1.search emb1 cid1 1).1 = none)
    (h2 : ∃ dists idxs, (fi2.search emb2 cid2 1).1 = some (dists, idxs)
            ∧ FAISS_THRESHOLD ≤ dists.getD 0 0)
    (hf2 : ∃ ss, db2.fetch_students (some cid2) = some ss) :
    (mark_attendance db1 (some emb1, em1) fi1 cid1 now1).1.2.2
      = (mark_attendance db2 (some emb2, em2) fi2 cid2 now2).1.2.2 := by
  have hside1 : (mark_attendance db1 (some emb1, em1) fi1 cid1 now1).1.2.2
      = notRegisteredMsg := by
    unfold mark_attendance
    cases hf : db1.fetch_students (some cid1) with
    | none => rfl
    | some ss1 =>
      rcases h1 with h1 | h1
      · rw [hf] at h1
        cases h1
      · have hssne1 := (fetch_students_some hf).1
        have hssE1 : ss1.isEmpty = false := by
          cases ss1 with
          | nil => exact absurd rfl hssne1
          | cons a l => rfl
        rcases hts : fi1.search emb1 cid1 1 with ⟨o, sids, nms⟩
        rw [hts] at h1
        simp only at h1
        subst h1
        simp only [hssE1, hts, Bool.false_eq_true, if_false]
  have hside2 : (mark_attendance db2 (some emb2, em2) fi2 cid2 now2).1.2.2
      = notRegisteredMsg := by
    obtain ⟨ss2, hss2⟩ := hf2
    have hssne2 := (fetch_students_some hss2).1
    have hssE2 : ss2.isEmpty = false := by
      cases ss2 with
      | nil => exact absurd rfl hssne2
      | cons a l => rfl
    obtain ⟨dists, idxs, hs2, hth⟩ := h2
    rcases hts : fi2.search emb2 cid2 1 with ⟨o, sids, nms⟩
    rw [hts] at hs2
    simp only at hs2
    subst hs2
    unfold mark_attendance
    simp only [hss2, hssE2, hts, Bool.false_eq_true, if_false]
    rw [if_neg (not_lt.mpr hth)]
  rw [hside1, hside2]

set_option maxRecDepth 8192 in
/-- C8 witness: an empty course and a non-empty gallery whose best distance
is 1 ≥ 0.4 produce the same message. -/
theorem rejection_message_indistinguishable_witness :
    (mark_attendance ⟨[], [], none⟩ (some [], "") ⟨[], 512⟩ "AI" "t1").1.2.2
      = (mark_attendance ⟨[⟨1, "x", "AI", "Artificial Intelligence", List.replicate 512 0⟩], [], none⟩
          (some [0], "") ⟨[("AI", ⟨some [[1]], [1], ["x"]⟩)], 1⟩ "AI" "t2").1.2.2 :=
  rejection_message_indistinguishable _ _ _ _ _ _ _ _ _ _ _ _ (Or.inl rfl)
    ⟨[1], [0], by norm_num [FaissIndex.search, kNearest, sqDist, tagIdx, List.insertionSort],
     by norm_num [FAISS_THRESHOLD]⟩
    ⟨[⟨1, "x", "AI", "Artificial Intelligence", List.replicate 512 0⟩], by decide⟩

/-- C3: building a course index from an initial batch and then appending n
further (embedding, id, name) triples one at a time with update_index gives
an index whose every query — any query vector, any k — returns exactly the
same result (same distances, same ranks, same id/name resolution) as one
build over the concatenated batch, starting from a state with no index for
the course (e.g. a fresh FaissIndex; when the initial batch is non-empty the
build replaces any prior entry, so the proviso is only needed for an empty
initial batch, whose build is a silent no-op). -/
theorem build_then_update_search_equiv
    (fi fi1 fi2 : FaissIndex) (cid : String)
    (A : List Emb) (sA : List Int) (nA : List String) (B : List (Emb × Int × String))
    (h1 : fi.build_index A sA nA cid = Except.ok fi1)
    (h2 : fi.build_index (A ++ B.map (fun t => t.1)) (sA ++ B.map (fun t => t.2.1))
            (nA ++ B.map (fun t => t.2.2)) cid = Except.ok fi2)
    (h0 : A = [] → fi.indices.lookup cid = none)
    (q : Emb) (k : Nat) :
    (B.foldl (fun g t => g.update_index t.1 t.2.1 t.2.2 cid) fi1).search q cid k
      = fi2.search q cid k := by
  rcases build_index_ok h2 with ⟨hAB, hfi2⟩ | ⟨hABne, hlen1, hlen2, hdims, hfi2⟩
  · have hA : A = [] := (List.append_eq_nil.mp hAB).1
    have hB : B = [] := List.map_eq_nil_iff.mp (List.append_eq_nil.mp hAB).2
    subst hA hB hfi2
    rcases build_index_ok h1 with ⟨_, hfi1⟩ | ⟨hne, _⟩
    · subst hfi1
      rfl
    · exact absurd rfl hne
  · have hdimB : ∀ t ∈ B, t.1.length = fi.dimension := by
      intro t ht
      exact hdims t.1 (List.mem_append.mpr (Or.inr (List.mem_map_of_mem _ ht)))
    subst hfi2
    rcases build_index_ok h1 with ⟨hA, hfi1⟩ | ⟨hAne, hl1, hl2, hdA, hfi1⟩
    · subst hA
      rw [hfi1]
      have hlk : fi.indices.lookup cid = none := h0 rfl
      cases B with
      | nil => simp at hABne
      | cons b B2 =>
        rw [List.foldl_cons, update_index_create b.1 b.2.1 b.2.2 hlk (hdimB b (List.mem_cons_self b B2))]
        obtain ⟨hfin, hfind⟩ := foldl_update_lookup cid B2
          { fi with indices := setEntry fi.indices cid ⟨some [b.1], [b.2.1], [b.2.2]⟩ }
          [b.1] [b.2.1] [b.2.2] (lookup_setEntry_self _ _ _)
          (fun t ht => hdimB t (List.mem_cons_of_mem _ ht))
        apply search_congr cid
        · rw [hfind]
        · rw [hfin]
          simp only [lookup_setEntry_self, List.nil_append, List.map_cons,
            List.singleton_append, Option.some.injEq]
          have hsA : sA = [] := by
            simp only [List.nil_append, List.length_append, List.length_map,
              List.length_cons] at hlen1
            exact List.eq_nil_of_length_eq_zero (by omega)
          have hnA : nA = [] := by
            simp only [List.nil_append, List.length_append, List.length_map,
              List.length_cons] at hlen2
            exact List.eq_nil_of_length_eq_zero (by omega)
          subst hsA hnA
          simp
    · rw [hfi1]
      obtain ⟨hfin, hfind⟩ := foldl_update_lookup cid B
        { fi with indices := setEntry fi.indices cid ⟨some A, sA, nA⟩ }
        A sA nA (lookup_setEntry_self _ _ _) hdimB
      apply search_congr cid
      · rw [hfind]
      · rw [hfin]
        simp [lookup_setEntry_self]

/-- C3 witness: build one vector, append one vector; the search result on a
sample query equals that of the one-shot build over both vectors. -/
theorem build_then_update_search_equiv_witness :
    ([([1], 2, "b")].foldl (fun (g : FaissIndex) t => g.update_index t.1 t.2.1 t.2.2 "AI")
        ⟨[("AI", ⟨some [[0]], [1], ["a"]⟩)], 1⟩).search [0] "AI" 1
      = (⟨[("AI", ⟨some [[0], [1]], [1, 2], ["a", "b"]⟩)], 1⟩ : FaissIndex).search [0] "AI" 1 :=
  build_then_update_search_equiv ⟨[], 1⟩ ⟨[("AI", ⟨some [[0]], [1], ["a"]⟩)], 1⟩
    ⟨[("AI", ⟨some [[0], [1]], [1, 2], ["a", "b"]⟩)], 1⟩ "AI" [[0]] [1] ["a"] [([1], 2, "b")]
    rfl rfl (fun _ => rfl) [0] 1
